import Mathlib

/-!
Verification of the treadmill-controller device session core
(`BluetoothTreadmillService`, its command codec, and the status
distribution hub).

Speeds (C# `double`) are modelled as rationals; bytes are modelled as
naturals with the C# `(byte)` cast made explicit as `% 256`.
-/

namespace TreadmillControl

/-! ## Command codec (src/unnamed/part_002, lines 219–263) -/

/-- The C# `(byte)` cast of an `int`: the low 8 bits, i.e. `z % 256` with a
nonnegative remainder (`Int.emod`). -/
def byteOfInt (z : ℤ) : ℕ := (z % 256).toNat

/-- C# `Math.Round(double)` with its default `MidpointRounding.ToEven`
policy, on rationals: round to the nearest integer, ties to the even one. -/
def mathRound (q : ℚ) : ℤ :=
  if q - ⌊q⌋ < 1/2 then ⌊q⌋
  else if 1/2 < q - ⌊q⌋ then ⌊q⌋ + 1
  else if 2 ∣ ⌊q⌋ then ⌊q⌋ else ⌊q⌋ + 1

/-- `BuildStartCommand` (src/unnamed/part_002, lines 221–225): the constant
start frame `fa ef 11 00 00 00 00 f3 04`. -/
def buildStartCommand : List ℕ :=
  [0xFA, 0xEF, 0x11, 0x00, 0x00, 0x00, 0x00, 0xF3, 0x04]

/-- `BuildStopCommand` (src/unnamed/part_002, lines 227–231): the constant
stop frame `fa ef 11 00 00 00 00 f4 05`. -/
def buildStopCommand : List ℕ :=
  [0xFA, 0xEF, 0x11, 0x00, 0x00, 0x00, 0x00, 0xF4, 0x05]

/-- `BuildSpeedCommand` (src/unnamed/part_002, lines 233–263):
`tenths = (int)Math.Round(kmh * 10.0)`;
`speedCode = (byte)(tenths + 1)` when `tenths <= 14`, else `(byte)tenths`;
`checksum = (byte)(speedCode + 0x22)`;
frame `[0xFA,0xEF,0x11, 0x00,0x00,0x00, speedCode, 0x11, checksum]`. -/
def buildSpeedCommand (kmh : ℚ) : List ℕ :=
  let tenths : ℤ := mathRound (kmh * 10)
  let speedCode : ℕ := if tenths ≤ 14 then byteOfInt (tenths + 1) else byteOfInt tenths
  let checksum : ℕ := (speedCode + 0x22) % 256
  [0xFA, 0xEF, 0x11, 0x00, 0x00, 0x00, speedCode, 0x11, checksum]

/-- The clamp performed at the head of `SetSpeedAsync`
(src/unnamed/part_002, lines 125–126):
`if (speedKmh < 1.0) speedKmh = 1.0; if (speedKmh > 6.0) speedKmh = 6.0;`. -/
def clampSpeed (v : ℚ) : ℚ :=
  let v1 := if v < 1 then 1 else v
  if v1 > 6 then 6 else v1

/-- `encodeSetSpeed`: `BuildSpeedCommand` applied after the clamp in
`SetSpeedAsync`, exactly as the frame is produced by the service. -/
def encodeSetSpeed (v : ℚ) : List ℕ :=
  buildSpeedCommand (clampSpeed v)

/-- The frame as described by the specification (§4.1 / claim C1), written
from the spec's words: clamp to `[1.0, 6.0]`, `tenths = round(v * 10)`,
`speedCode = tenths <= 14 ? tenths + 1 : tenths`,
`checksum = (speedCode + 0x22) mod 256`, frame
`[0xFA,0xEF,0x11, 0x00,0x00,0x00, speedCode, 0x11, checksum]`. -/
def encodeSetSpeedSpec (v : ℚ) : List ℕ :=
  let tenths : ℤ := mathRound (clampSpeed v * 10)
  let speedCode : ℤ := if tenths ≤ 14 then tenths + 1 else tenths
  let checksum : ℤ := (speedCode + 0x22) % 256
  [0xFA, 0xEF, 0x11, 0x00, 0x00, 0x00, speedCode.toNat, 0x11, checksum.toNat]

/-! ## The session state machine (`BluetoothTreadmillService`)

The mutable fields of the service (src/unnamed/part_002, lines 17–27).
The four BLE handles are opaque references; only their null-ness is
observable, so each is modelled as a `Bool` (`true` = non-null). -/

structure TreadmillState where
  device : Bool
  gatt : Bool
  controlChar : Bool
  notifyChar : Bool
  isConnected : Bool
  isRunning : Bool
  currentSpeedKmh : ℚ
deriving DecidableEq, Repr

/-- `TreadmillStatus` (src/unnamed/part_001): the record returned by
`GetStatus`. -/
structure TreadmillStatus where
  IsConnected : Bool
  IsRunning : Bool
  CurrentSpeedKmh : ℚ
deriving DecidableEq, Repr

/-- The initial state of a freshly constructed service: all handles null,
disconnected, not running, speed `0`. -/
def initState : TreadmillState :=
  { device := false, gatt := false, controlChar := false, notifyChar := false,
    isConnected := false, isRunning := false, currentSpeedKmh := 0 }

/-- Errors an operation can surface (the `InvalidOperationException`s thrown
in src/unnamed/part_002 plus a transport failure of the characteristic
write). -/
inductive Err where
  | bleUnavailable
  | deviceNotFound
  | gattConnectFailed
  | serviceNotFound
  | controlCharMissing
  | notInitialized
  | writeFailed
deriving DecidableEq, Repr

/-- Outcomes of the BLE environment consulted during one
`ConnectInternalAsync` attempt, in the order the code consults them.
`startNotifyOk` is the outcome of `StartNotificationsAsync`, which the code
swallows (lines 187–194), so it never influences the result. -/
structure ConnectEnv where
  available : Bool
  deviceFound : Bool
  gattConnectOk : Bool
  serviceFound : Bool
  controlFound : Bool
  notifyFound : Bool
  startNotifyOk : Bool
deriving DecidableEq, Repr

/-- Outcomes of the two teardown calls in `DisconnectAsync`
(`_gatt.Disconnect()` and `StopNotificationsAsync`); both are wrapped in
catch-all blocks, so they are swallowed and never influence the result. -/
structure TeardownEnv where
  gattDisconnectOk : Bool
  stopNotifyOk : Bool
deriving DecidableEq, Repr

/-- `ConnectInternalAsync` (src/unnamed/part_002, lines 145–198). Returns
the state after the attempt together with the raised error, if any; a throw
mid-way leaves the mutations already performed in place. -/
def connectInternalAsync (s : TreadmillState) (e : ConnectEnv) :
    TreadmillState × Option Err :=
  if !e.available then (s, some .bleUnavailable)
  else if !e.deviceFound then (s, some .deviceNotFound)
  else
    let s1 := { s with device := true, gatt := true }
    if !e.gattConnectOk then (s1, some .gattConnectFailed)
    else if !e.serviceFound then (s1, some .serviceNotFound)
    else if !e.controlFound then (s1, some .controlCharMissing)
    else
      let s2 := { s1 with controlChar := true, notifyChar := e.notifyFound }
      ({ s2 with isConnected := true }, none)

/-- `ConnectAsync` (src/unnamed/part_002, lines 41–58), instrumented with a
third component recording whether `ConnectInternalAsync` was invoked.
The `_connectionLock` semaphore serializes the critical section; the
unlocked early return and the locked re-check are the two `isConnected`
tests.  Sequentially (one caller at a time at the lock) both read the same
state. -/
def connectAsyncTr (s : TreadmillState) (e : ConnectEnv) :
    TreadmillState × Option Err × Bool :=
  if s.isConnected then (s, none, false)
  else if s.isConnected then (s, none, false)
  else
    let r := connectInternalAsync s e
    (r.1, r.2, true)

/-- `ConnectAsync` without the instrumentation. -/
def connectAsync (s : TreadmillState) (e : ConnectEnv) :
    TreadmillState × Option Err :=
  ((connectAsyncTr s e).1, (connectAsyncTr s e).2.1)

/-- `EnsureConnectedAsync` (src/unnamed/part_002, lines 137–143). -/
def ensureConnectedAsync (s : TreadmillState) (e : ConnectEnv) :
    TreadmillState × Option Err :=
  if s.isConnected then (s, none) else connectAsync s e

/-- `SendCommandAsync` (src/unnamed/part_002, lines 211–217): throws when
`_controlChar` is null, otherwise performs the fire-and-forget write whose
transport outcome is `writeOk`.  The state is never modified. -/
def sendCommandAsync (s : TreadmillState) (writeOk : Bool) : Option Err :=
  if !s.controlChar then some .notInitialized
  else if writeOk then none
  else some .writeFailed

/-- `StartAsync` (src/unnamed/part_002, lines 105–110): ensure connected,
write `BuildStartCommand()`, then optimistically set `_isRunning = true`. -/
def startAsync (s : TreadmillState) (e : ConnectEnv) (writeOk : Bool) :
    TreadmillState × Option Err :=
  match ensureConnectedAsync s e with
  | (s1, some err) => (s1, some err)
  | (s1, none) =>
    match sendCommandAsync s1 writeOk with
    | some err => (s1, some err)
    | none => ({ s1 with isRunning := true }, none)

/-- `StopAsync` (src/unnamed/part_002, lines 112–118): ensure connected,
write `BuildStopCommand()`, then set `_isRunning = false` and
`_currentSpeedKmh = 0.0`. -/
def stopAsync (s : TreadmillState) (e : ConnectEnv) (writeOk : Bool) :
    TreadmillState × Option Err :=
  match ensureConnectedAsync s e with
  | (s1, some err) => (s1, some err)
  | (s1, none) =>
    match sendCommandAsync s1 writeOk with
    | some err => (s1, some err)
    | none => ({ s1 with isRunning := false, currentSpeedKmh := 0 }, none)

/-- `SetSpeedAsync` (src/unnamed/part_002, lines 120–133): ensure connected,
clamp, write `BuildSpeedCommand(speedKmh)` (the written frame is
`buildSpeedCommand (clampSpeed v)`, i.e. `encodeSetSpeed v`), then set
`_currentSpeedKmh = speedKmh` and `_isRunning = speedKmh > 0.0` on the
clamped value. -/
def setSpeedAsync (s : TreadmillState) (v : ℚ) (e : ConnectEnv) (writeOk : Bool) :
    TreadmillState × Option Err :=
  match ensureConnectedAsync s e with
  | (s1, some err) => (s1, some err)
  | (s1, none) =>
    match sendCommandAsync s1 writeOk with
    | some err => (s1, some err)
    | none =>
      ({ s1 with currentSpeedKmh := clampSpeed v,
                 isRunning := decide (clampSpeed v > 0) }, none)

/-- `DisconnectAsync` (src/unnamed/part_002, lines 60–103): both teardown
calls are wrapped in catch-alls (the `TeardownEnv` outcomes are swallowed),
after which every handle is nulled and the status fields are reset.  It can
never raise. -/
def disconnectAsync (s : TreadmillState) (e : TeardownEnv) :
    TreadmillState × Option Err :=
  ({ device := false, gatt := false, controlChar := false, notifyChar := false,
     isConnected := false, isRunning := false, currentSpeedKmh := 0 }, none)

/-- `GetStatus` (src/unnamed/part_002, lines 29–37). -/
def getStatus (s : TreadmillState) : TreadmillStatus :=
  { IsConnected := s.isConnected, IsRunning := s.isRunning,
    CurrentSpeedKmh := s.currentSpeedKmh }

/-- One invocation of a public operation, together with the environment
outcomes it consumes. -/
inductive Op where
  | connect (e : ConnectEnv)
  | disconnect (e : TeardownEnv)
  | start (e : ConnectEnv) (writeOk : Bool)
  | stop (e : ConnectEnv) (writeOk : Bool)
  | setSpeed (v : ℚ) (e : ConnectEnv) (writeOk : Bool)
  | status

/-- The state reached after one public operation (errors are surfaced to the
caller; the state component is kept either way). -/
def step (s : TreadmillState) : Op → TreadmillState
  | .connect e => (connectAsync s e).1
  | .disconnect e => (disconnectAsync s e).1
  | .start e w => (startAsync s e w).1
  | .stop e w => (stopAsync s e w).1
  | .setSpeed v e w => (setSpeedAsync s v e w).1
  | .status => s

/-- The state reached from `s` by a sequence of public operations. -/
def runOps (s : TreadmillState) (ops : List Op) : TreadmillState :=
  ops.foldl step s

/-- The `Status` invariants exactly as claim C3 states them. -/
def statusInvariants (s : TreadmillState) : Prop :=
  (s.isRunning = true → s.isConnected = true) ∧
  (s.isConnected = false → s.currentSpeedKmh = 0 ∧ s.isRunning = false) ∧
  (s.isRunning = true → 1 ≤ s.currentSpeedKmh ∧ s.currentSpeedKmh ≤ 6)

/-- The inductive invariant the code actually maintains: the first two
`Status` invariants, a weakened speed bound (the speed is `0` or lies in
`[1, 6]` — `StartAsync` sets `isRunning` without touching the speed), and
the handle invariant used by `SendCommandAsync`. -/
def FullInv (s : TreadmillState) : Prop :=
  (s.isRunning = true → s.isConnected = true) ∧
  (s.isConnected = false → s.currentSpeedKmh = 0 ∧ s.isRunning = false) ∧
  (s.currentSpeedKmh = 0 ∨ (1 ≤ s.currentSpeedKmh ∧ s.currentSpeedKmh ≤ 6)) ∧
  (s.isConnected = true → s.controlChar = true)

/-- An environment in which a connection attempt fully succeeds. -/
def goodEnv : ConnectEnv :=
  { available := true, deviceFound := true, gattConnectOk := true,
    serviceFound := true, controlFound := true, notifyFound := true,
    startNotifyOk := true }

/-- An environment in which the Bluetooth radio is off, so the attempt
fails at the first check. -/
def badEnv : ConnectEnv :=
  { available := false, deviceFound := true, gattConnectOk := true,
    serviceFound := true, controlFound := true, notifyFound := true,
    startNotifyOk := true }

/-- A connection attempt succeeds in environment `e`. -/
def envOk (e : ConnectEnv) : Prop :=
  e.available = true ∧ e.deviceFound = true ∧ e.gattConnectOk = true ∧
  e.serviceFound = true ∧ e.controlFound = true

/-! ## N queued `connect()` callers (claim C6)

The `_connectionLock` semaphore makes the critical sections of concurrent
`ConnectAsync` callers mutually exclusive, so every interleaving executes
the callers' critical sections in some queue order; a caller whose unlocked
early check already sees `isConnected = true` simply returns, which is the
same outcome its locked re-check would produce.  `runConnects` therefore
folds the callers in queue order, recording for each caller its raised
error, the status it observes at completion, and counting how many callers
actually invoked `ConnectInternalAsync`. -/

def runConnects (s : TreadmillState) :
    List ConnectEnv → TreadmillState × ℕ × List (Option Err × TreadmillStatus)
  | [] => (s, 0, [])
  | e :: rest =>
    let t := connectAsyncTr s e
    let r := runConnects t.1 rest
    (r.1, (if t.2.2 then 1 else 0) + r.2.1, (t.2.1, getStatus t.1) :: r.2.2)

/-! ## Status distribution hub (claim C8)

Modelled from the spec: the `StatusHub` / server-push endpoint that fans
`Status` snapshots out to subscribers is not under src (the backend maps no
`/api/events` route in the sources given); the frontend's
`TreadmillService.statusSubject` is an rxjs `BehaviorSubject`, whose
semantics the spec describes in §4.4: `publish` replaces the current
snapshot and delivers it to every subscriber, `subscribe` immediately
delivers the current snapshot (if any) before any subsequent publish.
Each subscriber is modelled by its delivery log (oldest first). -/

inductive HubEvent where
  | publish (v : TreadmillStatus)
  | subscribe

structure HubState where
  current : Option TreadmillStatus
  subs : List (List TreadmillStatus)
deriving DecidableEq, Repr

def hubInit : HubState := { current := none, subs := [] }

def hubStep (h : HubState) : HubEvent → HubState
  | .publish v => { current := some v, subs := h.subs.map (fun log => log ++ [v]) }
  | .subscribe => { current := h.current, subs := h.subs ++ [h.current.toList] }

def runHub (h : HubState) (es : List HubEvent) : HubState :=
  es.foldl hubStep h

/-- The most recently published status of an event trace, if any. -/
def lastPublished (cur : Option TreadmillStatus) : List HubEvent → Option TreadmillStatus
  | [] => cur
  | .publish v :: rest => lastPublished (some v) rest
  | .subscribe :: rest => lastPublished cur rest

/-! ## Helper lemmas -/

lemma clampSpeed_mem (v : ℚ) : 1 ≤ clampSpeed v ∧ clampSpeed v ≤ 6 := by
  simp only [clampSpeed]
  split_ifs <;> constructor <;> linarith

lemma clampSpeed_of_le_one {v : ℚ} (h : v ≤ 1) : clampSpeed v = 1 := by
  simp only [clampSpeed]
  split_ifs <;> linarith

lemma mathRound_bounds {lo hi : ℤ} {q : ℚ} (h1 : (lo : ℚ) ≤ q) (h2 : q ≤ (hi : ℚ)) :
    lo ≤ mathRound q ∧ mathRound q ≤ hi := by
  have hfl : lo ≤ ⌊q⌋ := Int.le_floor.mpr h1
  have hfh : ⌊q⌋ ≤ hi := by
    have h := Int.floor_le_floor h2
    simpa using h
  have hq1 : (⌊q⌋ : ℚ) ≤ q := Int.floor_le q
  have hstrict : ¬(q - ⌊q⌋ < 1/2) → ⌊q⌋ < hi := by
    intro hA
    have h3 : (1:ℚ)/2 ≤ q - ⌊q⌋ := not_lt.mp hA
    have h4 : (⌊q⌋ : ℚ) < (hi : ℚ) := by linarith
    exact_mod_cast h4
  unfold mathRound
  split_ifs with hA hB hC
  · exact ⟨hfl, hfh⟩
  · exact ⟨by omega, by have := hstrict hA; omega⟩
  · exact ⟨hfl, hfh⟩
  · exact ⟨by omega, by have := hstrict hA; omega⟩

lemma clampSpeed_pos (v : ℚ) : (0 : ℚ) < clampSpeed v :=
  lt_of_lt_of_le zero_lt_one (clampSpeed_mem v).1

lemma connectInternalAsync_inv {s : TreadmillState} (e : ConnectEnv) (h : FullInv s) :
    FullInv (connectInternalAsync s e).1 ∧
    ((connectInternalAsync s e).2 = none →
      (connectInternalAsync s e).1.isConnected = true ∧
      (connectInternalAsync s e).1.controlChar = true) ∧
    (connectInternalAsync s e).2 ≠ some Err.notInitialized := by
  obtain ⟨h1, h2, h3, h4⟩ := h
  obtain ⟨av, df, gc, sf, cf, nf, sn⟩ := e
  obtain ⟨d, g, cc, nc, ic, ir, sp⟩ := s
  cases av <;> cases df <;> cases gc <;> cases sf <;> cases cf <;>
    simp_all [connectInternalAsync, FullInv]

lemma connectAsyncTr_inv {s : TreadmillState} (e : ConnectEnv) (h : FullInv s) :
    FullInv (connectAsyncTr s e).1 ∧
    ((connectAsyncTr s e).2.1 = none →
      (connectAsyncTr s e).1.isConnected = true ∧
      (connectAsyncTr s e).1.controlChar = true) ∧
    (connectAsyncTr s e).2.1 ≠ some Err.notInitialized := by
  by_cases hc : s.isConnected = true
  · have hcc := h.2.2.2 hc
    have htr : connectAsyncTr s e = (s, none, false) := by simp [connectAsyncTr, hc]
    rw [htr]
    exact ⟨h, fun _ => ⟨hc, hcc⟩, by simp⟩
  · have hci := connectInternalAsync_inv e h
    simp only [connectAsyncTr, hc, if_false, Bool.not_eq_true] at *
    simpa using hci

lemma ensureConnectedAsync_inv {s : TreadmillState} (e : ConnectEnv) (h : FullInv s) :
    FullInv (ensureConnectedAsync s e).1 ∧
    ((ensureConnectedAsync s e).2 = none →
      (ensureConnectedAsync s e).1.isConnected = true ∧
      (ensureConnectedAsync s e).1.controlChar = true) ∧
    (ensureConnectedAsync s e).2 ≠ some Err.notInitialized := by
  by_cases hc : s.isConnected = true
  · have hcc := h.2.2.2 hc
    have he : ensureConnectedAsync s e = (s, none) := by simp [ensureConnectedAsync, hc]
    rw [he]
    exact ⟨h, fun _ => ⟨hc, hcc⟩, by simp⟩
  · have hct := connectAsyncTr_inv e h
    simp only [ensureConnectedAsync, connectAsync, hc, if_false] at *
    simpa using hct

lemma startAsync_inv {s : TreadmillState} (e : ConnectEnv) (w : Bool) (h : FullInv s) :
    FullInv (startAsync s e w).1 ∧ (startAsync s e w).2 ≠ some Err.notInitialized := by
  obtain ⟨hI, hok, hne⟩ := ensureConnectedAsync_inv e h
  rcases hE : ensureConnectedAsync s e with ⟨s1, r⟩
  rw [hE] at hI hok hne
  simp only at hI hok hne
  cases r with
  | some err =>
    simp only [startAsync, hE]
    exact ⟨hI, hne⟩
  | none =>
    obtain ⟨hic, hcc⟩ := hok rfl
    obtain ⟨h1, h2, h3, h4⟩ := hI
    cases w <;>
      simp_all [startAsync, hE, sendCommandAsync, FullInv]

lemma stopAsync_inv {s : TreadmillState} (e : ConnectEnv) (w : Bool) (h : FullInv s) :
    FullInv (stopAsync s e w).1 ∧ (stopAsync s e w).2 ≠ some Err.notInitialized := by
  obtain ⟨hI, hok, hne⟩ := ensureConnectedAsync_inv e h
  rcases hE : ensureConnectedAsync s e with ⟨s1, r⟩
  rw [hE] at hI hok hne
  simp only at hI hok hne
  cases r with
  | some err =>
    simp only [stopAsync, hE]
    exact ⟨hI, hne⟩
  | none =>
    obtain ⟨hic, hcc⟩ := hok rfl
    obtain ⟨h1, h2, h3, h4⟩ := hI
    cases w <;>
      simp_all [stopAsync, hE, sendCommandAsync, FullInv]

lemma setSpeedAsync_inv {s : TreadmillState} (v : ℚ) (e : ConnectEnv) (w : Bool)
    (h : FullInv s) :
    FullInv (setSpeedAsync s v e w).1 ∧
    (setSpeedAsync s v e w).2 ≠ some Err.notInitialized := by
  obtain ⟨hI, hok, hne⟩ := ensureConnectedAsync_inv e h
  rcases hE : ensureConnectedAsync s e with ⟨s1, r⟩
  rw [hE] at hI hok hne
  simp only at hI hok hne
  cases r with
  | some err =>
    simp only [setSpeedAsync, hE]
    exact ⟨hI, hne⟩
  | none =>
    obtain ⟨hic, hcc⟩ := hok rfl
    obtain ⟨h1, h2, h3, h4⟩ := hI
    have hcm := clampSpeed_mem v
    cases w <;>
      simp_all [setSpeedAsync, hE, sendCommandAsync, FullInv, clampSpeed_pos v]

lemma step_inv {s : TreadmillState} (op : Op) (h : FullInv s) : FullInv (step s op) := by
  cases op with
  | connect e => exact (connectAsyncTr_inv e h).1
  | disconnect e => simp [step, disconnectAsync, FullInv]
  | start e w => exact (startAsync_inv e w h).1
  | stop e w => exact (stopAsync_inv e w h).1
  | setSpeed v e w => exact (setSpeedAsync_inv v e w h).1
  | status => exact h

lemma initState_inv : FullInv initState := by
  simp [FullInv, initState]

lemma runOps_inv_from {ops : List Op} :
    ∀ {s : TreadmillState}, FullInv s → FullInv (runOps s ops) := by
  induction ops with
  | nil => intro s h; simpa [runOps] using h
  | cons op rest ih =>
    intro s h
    have : runOps s (op :: rest) = runOps (step s op) rest := by
      simp [runOps, List.foldl_cons]
    rw [this]
    exact ih (step_inv op h)

lemma runOps_inv (ops : List Op) : FullInv (runOps initState ops) :=
  runOps_inv_from initState_inv

/-! ## Claim theorems: codec -/

/-- C1: for every input speed `v`, `encodeSetSpeed v` (i.e.
`BuildSpeedCommand` after the clamp in `SetSpeedAsync`) produces exactly the
9-byte frame described by the spec: `v` clamped to `[1.0, 6.0]`,
`tenths = round(v * 10)`, `speedCode = tenths + 1` if `tenths ≤ 14` else
`tenths`, `checksum = (speedCode + 0x22) mod 256`, laid out as
`[0xFA,0xEF,0x11,0x00,0x00,0x00,speedCode,0x11,checksum]`. -/
theorem encodeSetSpeed_refines_spec_frame (v : ℚ) :
    encodeSetSpeed v = encodeSetSpeedSpec v := by
  obtain ⟨hc1, hc2⟩ := clampSpeed_mem v
  obtain ⟨hlo, hhi⟩ :
      (10 : ℤ) ≤ mathRound (clampSpeed v * 10) ∧ mathRound (clampSpeed v * 10) ≤ 60 := by
    apply mathRound_bounds <;> push_cast <;> linarith
  simp only [encodeSetSpeed, encodeSetSpeedSpec, buildSpeedCommand, byteOfInt]
  by_cases h14 : mathRound (clampSpeed v * 10) ≤ 14 <;>
    simp only [h14, if_pos, if_neg, if_true, if_false, List.cons.injEq, and_true, true_and] <;>
    constructor <;> omega

/-- C2 (code bug): evaluating the encoder at the spec's table of sniffed
values. At `v = 1.1` the code produces `(speedCode, checksum) = (0x0C, 0x2E)`,
not the `(0x0B, 0x2D)` listed by the spec and by the code's own sniff
comment; the other listed points `1.5 → (0x0F,0x31)`, `2.0 → (0x14,0x36)`,
`4.0 → (0x28,0x4A)` do match. -/
theorem encodeSetSpeed_at_sniffed_points :
    encodeSetSpeed (11/10 : ℚ) = [0xFA, 0xEF, 0x11, 0x00, 0x00, 0x00, 0x0C, 0x11, 0x2E] ∧
    encodeSetSpeed (11/10 : ℚ) ≠ [0xFA, 0xEF, 0x11, 0x00, 0x00, 0x00, 0x0B, 0x11, 0x2D] ∧
    encodeSetSpeed (3/2 : ℚ) = [0xFA, 0xEF, 0x11, 0x00, 0x00, 0x00, 0x0F, 0x11, 0x31] ∧
    encodeSetSpeed (2 : ℚ) = [0xFA, 0xEF, 0x11, 0x00, 0x00, 0x00, 0x14, 0x11, 0x36] ∧
    encodeSetSpeed (4 : ℚ) = [0xFA, 0xEF, 0x11, 0x00, 0x00, 0x00, 0x28, 0x11, 0x4A] := by
  refine ⟨?_, ?_, ?_, ?_, ?_⟩ <;>
    norm_num [encodeSetSpeed, buildSpeedCommand, clampSpeed, mathRound, byteOfInt] <;>
    omega

/-- C7: the start frame is exactly
`[0xFA,0xEF,0x11,0x00,0x00,0x00,0x00,0xF3,0x04]` and the stop frame exactly
`[0xFA,0xEF,0x11,0x00,0x00,0x00,0x00,0xF4,0x05]`, constants independent of
any state or input. -/
theorem start_stop_frames_constant :
    buildStartCommand = [0xFA, 0xEF, 0x11, 0x00, 0x00, 0x00, 0x00, 0xF3, 0x04] ∧
    buildStopCommand = [0xFA, 0xEF, 0x11, 0x00, 0x00, 0x00, 0x00, 0xF4, 0x05] :=
  ⟨rfl, rfl⟩

/-! ## Claim theorems: session state machine -/

/-- C3 counterexample: after `ConnectAsync` succeeds and a bare `StartAsync`
succeeds, the service reports `isRunning = true` while
`currentSpeedKmh = 0`, so the claimed invariant "`currentSpeedKmh` lies in
`[1.0, 6.0]` when `isRunning`" fails in a reachable state. -/
theorem statusInvariants_violated_after_bare_start :
    ¬ statusInvariants (runOps initState [Op.connect goodEnv, Op.start goodEnv true]) := by
  unfold statusInvariants
  decide

/-- C3 (amended): in every state reachable by sequential interleavings of
the public operations, `isRunning` implies `isConnected`, not `isConnected`
implies `currentSpeedKmh = 0` and not `isRunning`, and `currentSpeedKmh` is
either `0` (a bare `StartAsync` leaves the speed untouched) or lies within
`[1.0, 6.0]`. -/
theorem status_invariants_reachable (ops : List Op) :
    ((runOps initState ops).isRunning = true → (runOps initState ops).isConnected = true) ∧
    ((runOps initState ops).isConnected = false →
      (runOps initState ops).currentSpeedKmh = 0 ∧ (runOps initState ops).isRunning = false) ∧
    ((runOps initState ops).currentSpeedKmh = 0 ∨
      (1 ≤ (runOps initState ops).currentSpeedKmh ∧
        (runOps initState ops).currentSpeedKmh ≤ 6)) := by
  obtain ⟨h1, h2, h3, h4⟩ := runOps_inv ops
  exact ⟨h1, h2, h3⟩

/-- C4: `DisconnectAsync` never raises (all teardown errors are swallowed)
and, from any prior state whatsoever, terminates with every handle cleared
and `Status = {isConnected := false, isRunning := false,
currentSpeedKmh := 0}`. -/
theorem disconnect_always_resets (s : TreadmillState) (e : TeardownEnv) :
    disconnectAsync s e = (initState, none) ∧
    (disconnectAsync s e).1.device = false ∧
    (disconnectAsync s e).1.gatt = false ∧
    (disconnectAsync s e).1.controlChar = false ∧
    (disconnectAsync s e).1.notifyChar = false ∧
    getStatus (disconnectAsync s e).1 =
      { IsConnected := false, IsRunning := false, CurrentSpeedKmh := 0 } ∧
    (disconnectAsync s e).2 = none :=
  ⟨rfl, rfl, rfl, rfl, rfl, rfl, rfl⟩

/-- C5: from any reachable state, when `EnsureConnectedAsync` succeeds and
the underlying write then fails, `StartAsync`, `StopAsync` and
`SetSpeedAsync` raise `writeFailed` and leave the state exactly as it was
just before the write (no optimistic update, no teardown); when the write
succeeds they apply exactly the optimistic update. -/
theorem write_failure_is_atomic (ops : List Op) (e : ConnectEnv) (v : ℚ)
    (h : (ensureConnectedAsync (runOps initState ops) e).2 = none) :
    startAsync (runOps initState ops) e false
      = ((ensureConnectedAsync (runOps initState ops) e).1, some Err.writeFailed) ∧
    stopAsync (runOps initState ops) e false
      = ((ensureConnectedAsync (runOps initState ops) e).1, some Err.writeFailed) ∧
    setSpeedAsync (runOps initState ops) v e false
      = ((ensureConnectedAsync (runOps initState ops) e).1, some Err.writeFailed) ∧
    startAsync (runOps initState ops) e true
      = ({ (ensureConnectedAsync (runOps initState ops) e).1 with isRunning := true }, none) ∧
    stopAsync (runOps initState ops) e true
      = ({ (ensureConnectedAsync (runOps initState ops) e).1 with
            isRunning := false, currentSpeedKmh := 0 }, none) ∧
    setSpeedAsync (runOps initState ops) v e true
      = ({ (ensureConnectedAsync (runOps initState ops) e).1 with
            currentSpeedKmh := clampSpeed v,
            isRunning := decide (clampSpeed v > 0) }, none) := by
  have hInv := runOps_inv ops
  obtain ⟨hI, hok, hne⟩ := ensureConnectedAsync_inv e hInv
  rcases hE : ensureConnectedAsync (runOps initState ops) e with ⟨s1, r⟩
  rw [hE] at h hok
  simp only at h hok
  subst h
  obtain ⟨hic, hcc⟩ := hok rfl
  refine ⟨?_, ?_, ?_, ?_, ?_, ?_⟩ <;>
    simp [startAsync, stopAsync, setSpeedAsync, hE, sendCommandAsync, hcc]

/-- Witness for C5 at the empty history and a fully successful connect
environment. -/
theorem write_failure_is_atomic_witness :
    (ensureConnectedAsync (runOps initState []) goodEnv).2 = none ∧
    (startAsync (runOps initState []) goodEnv false
      = ((ensureConnectedAsync (runOps initState []) goodEnv).1, some Err.writeFailed) ∧
    stopAsync (runOps initState []) goodEnv false
      = ((ensureConnectedAsync (runOps initState []) goodEnv).1, some Err.writeFailed) ∧
    setSpeedAsync (runOps initState []) 0 goodEnv false
      = ((ensureConnectedAsync (runOps initState []) goodEnv).1, some Err.writeFailed) ∧
    startAsync (runOps initState []) goodEnv true
      = ({ (ensureConnectedAsync (runOps initState []) goodEnv).1 with
            isRunning := true }, none) ∧
    stopAsync (runOps initState []) goodEnv true
      = ({ (ensureConnectedAsync (runOps initState []) goodEnv).1 with
            isRunning := false, currentSpeedKmh := 0 }, none) ∧
    setSpeedAsync (runOps initState []) 0 goodEnv true
      = ({ (ensureConnectedAsync (runOps initState []) goodEnv).1 with
            currentSpeedKmh := clampSpeed 0,
            isRunning := decide (clampSpeed 0 > 0) }, none)) :=
  ⟨by decide, write_failure_is_atomic [] goodEnv 0 (by decide)⟩

/-- C9: whenever a `SetSpeedAsync v` call completes without error, the
resulting state has `isRunning = true` and `currentSpeedKmh ≥ 1`; for every
`v ≤ 1.0` (including `0` and negative values) the resulting speed is exactly
`1.0`.  `SetSpeedAsync` can therefore never turn `isRunning` off nor record
speed `0`, because the clamp to `[1.0, 6.0]` precedes the
`isRunning = speedKmh > 0` assignment. -/
theorem setSpeed_success_forces_running (s : TreadmillState) (v : ℚ) (e : ConnectEnv)
    (w : Bool) (s2 : TreadmillState)
    (h : setSpeedAsync s v e w = (s2, none)) :
    s2.isRunning = true ∧ 1 ≤ s2.currentSpeedKmh ∧ (v ≤ 1 → s2.currentSpeedKmh = 1) := by
  rcases hE : ensureConnectedAsync s e with ⟨s1, r⟩
  cases r with
  | some err =>
    have hfin : setSpeedAsync s v e w = (s1, some err) := by
      simp [setSpeedAsync, hE]
    rw [hfin] at h
    simp at h
  | none =>
    cases hS : sendCommandAsync s1 w with
    | some err =>
      have hfin : setSpeedAsync s v e w = (s1, some err) := by
        simp [setSpeedAsync, hE, hS]
      rw [hfin] at h
      simp at h
    | none =>
      have hfin : setSpeedAsync s v e w
          = ({ s1 with
                currentSpeedKmh := clampSpeed v,
                isRunning := decide (clampSpeed v > 0) }, none) := by
        simp [setSpeedAsync, hE, hS]
      rw [hfin] at h
      simp only [Prod.mk.injEq] at h
      obtain ⟨hs2, -⟩ := h
      subst hs2
      refine ⟨?_, ?_, ?_⟩
      · simp [decide_eq_true_eq, clampSpeed_pos v]
      · simpa using (clampSpeed_mem v).1
      · intro hv; simp [clampSpeed_of_le_one hv]

/-- Witness for C9: `SetSpeedAsync 0` from the fresh state with a successful
connect and write. -/
theorem setSpeed_success_forces_running_witness :
    setSpeedAsync initState 0 goodEnv true
        = (⟨true, true, true, true, true, true, 1⟩, none) ∧
    (TreadmillState.isRunning ⟨true, true, true, true, true, true, 1⟩ = true ∧
      1 ≤ TreadmillState.currentSpeedKmh ⟨true, true, true, true, true, true, 1⟩ ∧
      ((0:ℚ) ≤ 1 →
        TreadmillState.currentSpeedKmh ⟨true, true, true, true, true, true, 1⟩ = 1)) :=
  ⟨by decide,
    setSpeed_success_forces_running initState 0 goodEnv true
      ⟨true, true, true, true, true, true, 1⟩ (by decide)⟩

/-- C10: in every reachable state the invariant `isConnected →
controlChar ≠ null` holds, and consequently `StartAsync`, `StopAsync` and
`SetSpeedAsync` can never surface the `Control characteristic not
initialized` error of `SendCommandAsync`: once `EnsureConnectedAsync`
returns successfully that branch is unreachable, and when it fails the
surfaced error is a connect error. -/
theorem sendCommand_null_check_unreachable (ops : List Op) (e : ConnectEnv) (v : ℚ)
    (w : Bool) :
    ((runOps initState ops).isConnected = true → (runOps initState ops).controlChar = true) ∧
    (startAsync (runOps initState ops) e w).2 ≠ some Err.notInitialized ∧
    (stopAsync (runOps initState ops) e w).2 ≠ some Err.notInitialized ∧
    (setSpeedAsync (runOps initState ops) v e w).2 ≠ some Err.notInitialized := by
  have h := runOps_inv ops
  exact ⟨h.2.2.2, (startAsync_inv e w h).2, (stopAsync_inv e w h).2,
    (setSpeedAsync_inv v e w h).2⟩

/-! ## Claim theorems: queued concurrent connects (C6) -/

lemma connectAsyncTr_connected {s : TreadmillState} (e : ConnectEnv)
    (hs : s.isConnected = true) : connectAsyncTr s e = (s, none, false) := by
  simp [connectAsyncTr, hs]

lemma runConnects_connected {s : TreadmillState} (hs : s.isConnected = true) :
    ∀ es : List ConnectEnv,
      runConnects s es = (s, 0, List.replicate es.length (none, getStatus s)) := by
  intro es
  induction es with
  | nil => simp [runConnects]
  | cons e rest ih =>
    simp [runConnects, connectAsyncTr_connected e hs, ih, List.replicate_succ]

lemma connectAsyncTr_initState_good {e : ConnectEnv} (h : envOk e) :
    connectAsyncTr initState e =
      ({ device := true, gatt := true, controlChar := true, notifyChar := e.notifyFound,
         isConnected := true, isRunning := false, currentSpeedKmh := 0 },
        none, true) := by
  obtain ⟨h1, h2, h3, h4, h5⟩ := h
  simp [connectAsyncTr, initState, connectInternalAsync, h1, h2, h3, h4, h5]

/-- C6 (amended): the `_connectionLock` serializes connection attempts, so
at most one is in flight at a time and queued callers run in sequence;
when the first queued caller's attempt succeeds, exactly one
`ConnectInternalAsync` invocation occurs for the whole queue, every caller
completes without error, and every caller observes the same resulting
`Status {isConnected := true, isRunning := false, currentSpeedKmh := 0}`. -/
theorem single_open_when_first_attempt_succeeds (e : ConnectEnv) (es : List ConnectEnv)
    (h : envOk e) :
    (runConnects initState (e :: es)).2.1 = 1 ∧
    (runConnects initState (e :: es)).2.2 =
      List.replicate (es.length + 1)
        ((none : Option Err),
          ({ IsConnected := true, IsRunning := false, CurrentSpeedKmh := 0 } :
            TreadmillStatus)) ∧
    getStatus (runConnects initState (e :: es)).1 =
      { IsConnected := true, IsRunning := false, CurrentSpeedKmh := 0 } := by
  have hfst := connectAsyncTr_initState_good h
  have hrest := runConnects_connected (s :=
    { device := true, gatt := true, controlChar := true, notifyChar := e.notifyFound,
      isConnected := true, isRunning := false, currentSpeedKmh := 0 }) rfl es
  refine ⟨?_, ?_, ?_⟩ <;>
    simp [runConnects, hfst, hrest, getStatus, List.replicate_succ]

/-- Witness for C6 at a single fully successful caller. -/
theorem single_open_when_first_attempt_succeeds_witness :
    envOk goodEnv ∧
    ((runConnects initState [goodEnv]).2.1 = 1 ∧
    (runConnects initState [goodEnv]).2.2 =
      List.replicate (List.length ([] : List ConnectEnv) + 1)
        ((none : Option Err),
          ({ IsConnected := true, IsRunning := false, CurrentSpeedKmh := 0 } :
            TreadmillStatus)) ∧
    getStatus (runConnects initState [goodEnv]).1 =
      { IsConnected := true, IsRunning := false, CurrentSpeedKmh := 0 }) :=
  ⟨⟨rfl, rfl, rfl, rfl, rfl⟩,
    single_open_when_first_attempt_succeeds goodEnv [] ⟨rfl, rfl, rfl, rfl, rfl⟩⟩

/-- C6 counterexample: two callers queued against a disconnected session
where the first attempt fails (radio off) and the second succeeds: two
`ConnectInternalAsync` invocations occur — not exactly one — and the two
callers observe different results (`bleUnavailable` then success). -/
theorem two_opens_when_first_attempt_fails :
    (runConnects initState [badEnv, goodEnv]).2.1 = 2 ∧
    (runConnects initState [badEnv, goodEnv]).2.1 ≠ 1 ∧
    (runConnects initState [badEnv, goodEnv]).2.2 =
      [(some Err.bleUnavailable,
          { IsConnected := false, IsRunning := false, CurrentSpeedKmh := 0 }),
        ((none : Option Err),
          { IsConnected := true, IsRunning := false, CurrentSpeedKmh := 0 })] := by
  refine ⟨?_, ?_, ?_⟩ <;> decide

/-! ## Claim theorems: status hub replay (C8) -/

lemma runHub_current (es : List HubEvent) :
    ∀ h : HubState, (runHub h es).current = lastPublished h.current es := by
  induction es with
  | nil => intro h; simp [runHub, lastPublished]
  | cons ev rest ih =>
    intro h
    have hstep : runHub h (ev :: rest) = runHub (hubStep h ev) rest := rfl
    rw [hstep, ih]
    cases ev <;> simp [hubStep, lastPublished]

/-- C8: a subscriber that joins after at least one status has been published
immediately receives the most recently published status — its delivery log
right after subscribing is exactly `[v]` where `v` is the last published
status — and any subsequent publish `w` is delivered after it, giving the
log `[v, w]`. -/
theorem subscriber_replay (es : List HubEvent) (v : TreadmillStatus)
    (h : lastPublished none es = some v) :
    (runHub hubInit (es ++ [HubEvent.subscribe])).subs.getLast? = some [v] ∧
    ∀ w, (runHub hubInit (es ++ [HubEvent.subscribe, HubEvent.publish w])).subs.getLast?
        = some [v, w] := by
  have hcur : (List.foldl hubStep hubInit es).current = some v := by
    have hc2 := runHub_current es hubInit
    simp only [hubInit] at hc2
    rw [h] at hc2
    exact hc2
  constructor
  · simp [runHub, List.foldl_append, hubStep, hcur, List.getLast?_append_cons]
  · intro w
    simp [runHub, List.foldl_append, hubStep, hcur, List.map_append,
      List.getLast?_append_cons]

/-- Witness for C8: one publish, then a subscriber joins, then one more
publish. -/
theorem subscriber_replay_witness :
    lastPublished none [HubEvent.publish ⟨true, false, 2⟩] = some ⟨true, false, 2⟩ ∧
    (runHub hubInit ([HubEvent.publish ⟨true, false, 2⟩] ++
        [HubEvent.subscribe])).subs.getLast? = some [⟨true, false, 2⟩] ∧
    (runHub hubInit ([HubEvent.publish ⟨true, false, 2⟩] ++
        [HubEvent.subscribe, HubEvent.publish ⟨true, false, 4⟩])).subs.getLast?
      = some [⟨true, false, 2⟩, ⟨true, false, 4⟩] :=
  ⟨rfl,
    (subscriber_replay [HubEvent.publish ⟨true, false, 2⟩] ⟨true, false, 2⟩ rfl).1,
    (subscriber_replay [HubEvent.publish ⟨true, false, 2⟩] ⟨true, false, 2⟩ rfl).2
      ⟨true, false, 4⟩⟩

end TreadmillControl
